import Mathlib

/-!
Verification development for the runtime core of a PHP-like interpreter
(explicit-stack evaluator, environment/storage model, subscript evaluation).

The definitions below are a shallow embedding of the TypeScript sources
`evaluator.ts`, `environment.ts` and `evaluation/offset.ts`.  Host (JavaScript)
values are modelled by `JsVal`; machine doubles are modelled by rationals,
which is exact on every number the embedded code paths produce.  Diagnostics
(`console.error` calls) are accumulated in order; fatal errors (thrown
exceptions) are `EvalResult.fatal`, carrying the state at throw time so that
theorems can speak about what was (not) mutated before the throw.
-/

set_option maxRecDepth 4096

/-- A JavaScript runtime value as used by the interpreter: `undefined`, `null`,
booleans, numbers (rationals stand in for doubles; `nan` is separate), strings,
the IArray payload (an insertion-ordered key/value map, modelled as an
association list) and the IObject stub. -/
inductive JsVal where
  | undefined
  | jsnull
  | bool (b : Bool)
  | num (q : ℚ)
  | nan
  | str (s : String)
  | arr (elts : List (JsVal × JsVal))
  | obj

/-- The JavaScript `typeof` operator on a `JsVal`. -/
def jsTypeof : JsVal → String
  | .undefined => "undefined"
  | .jsnull => "object"
  | .bool _ => "boolean"
  | .num _ => "number"
  | .nan => "number"
  | .str _ => "string"
  | .arr _ => "object"
  | .obj => "object"

/-- `typeof` applied to a value that is statically a JavaScript string
(such as the `type` tag field of a location object): always `"string"`.
`offset.ts` writes `typeof derefNode.loc.type === "boolean"` and similar,
which is this function applied to the tag, not a test of the tag itself. -/
def jsTypeofStr (_ : String) : String := "string"

/-- `v === undefined` in the source. -/
def jsIsUndefined : JsVal → Bool
  | .undefined => true
  | _ => false

/-- Value of a single hex digit character; `16` for non-digits (filtered out
by `baseDigitOk` before use). -/
def digitVal (c : Char) : Nat :=
  if 48 ≤ c.toNat ∧ c.toNat ≤ 57 then c.toNat - 48
  else if 97 ≤ c.toNat ∧ c.toNat ≤ 102 then c.toNat - 87
  else if 65 ≤ c.toNat ∧ c.toNat ≤ 70 then c.toNat - 55
  else 16

/-- Is `c` a valid digit in base `b`? -/
def baseDigitOk (b : Nat) (c : Char) : Bool := digitVal c < b

/-- Is `c` a decimal digit? -/
def isDecDigit (c : Char) : Bool := 48 ≤ c.toNat && c.toNat ≤ 57

/-- Value of a digit string in base `b`. -/
def digitsNat (b : Nat) (l : List Char) : Nat :=
  l.foldl (fun a c => b * a + digitVal c) 0

/-- The numeric value of a decoded decimal literal: sign, integer part digits,
fraction digits, decimal exponent. -/
def decValue (neg : Bool) (ip fp : List Char) (ex : Int) : ℚ :=
  let m : ℚ := (digitsNat 10 ip : ℚ) + (digitsNat 10 fp : ℚ) / (10 : ℚ) ^ fp.length
  (if neg then -m else m) * (10 : ℚ) ^ ex

/-- JavaScript `Number(string)` on a string with hex/binary/octal prefix
stripped: all characters must be digits of the base, else `NaN`. -/
def parseBase (b : Nat) (ds : List Char) : JsVal :=
  if ds.isEmpty || !(ds.all (baseDigitOk b)) then .nan
  else .num (digitsNat b ds)

/-- JavaScript `Number(string)` on the decimal grammar
`[+|-] digits [. digits] [(e|E) [+|-] digits]` (also `.digits`), `NaN` on
anything else.  Leading zeros are ordinary decimal digits, which is why the
legacy-octal spelling `02471` denotes two thousand four hundred seventy-one. -/
def parseDec (cs : List Char) : JsVal :=
  let sgn : Bool × List Char :=
    match cs with
    | '-' :: r => (true, r)
    | '+' :: r => (false, r)
    | _ => (false, cs)
  let neg := sgn.1
  let cs1 := sgn.2
  let ip := cs1.takeWhile isDecDigit
  let r1 := cs1.dropWhile isDecDigit
  let fr : List Char × List Char :=
    match r1 with
    | '.' :: r => (r.takeWhile isDecDigit, r.dropWhile isDecDigit)
    | _ => ([], r1)
  let fp := fr.1
  let r2 := fr.2
  if ip.isEmpty && fp.isEmpty then .nan
  else
    match r2 with
    | [] => .num (decValue neg ip fp 0)
    | e :: r3 =>
      if e = 'e' ∨ e = 'E' then
        let esgn : Bool × List Char :=
          match r3 with
          | '-' :: r => (true, r)
          | '+' :: r => (false, r)
          | _ => (false, r3)
        if esgn.2.isEmpty || !(esgn.2.all isDecDigit) then .nan
        else
          .num (decValue neg ip fp
            (if esgn.1 then -(digitsNat 10 esgn.2 : Int) else (digitsNat 10 esgn.2 : Int)))
      else .nan

/-- JavaScript `Number(string)`, as applied by `evaluator.ts`
(`Number(expr.value)` on a numeric literal spelling) and by the offset key
normalization (`Number(offsetName)` on a string that matched the
signed-decimal-integer pattern).  The empty string converts to `0`; `0x`/`0X`,
`0b`/`0B`, `0o`/`0O` prefixes select base 16/2/8; every other spelling is read
with the decimal grammar.  (Whitespace trimming and the `Infinity` spellings
of the host conversion are omitted: no embedded code path produces them.) -/
def jsNumber (s : String) : JsVal :=
  match s.data with
  | [] => .num 0
  | '0' :: c :: rest =>
    if c = 'x' ∨ c = 'X' then parseBase 16 rest
    else if c = 'b' ∨ c = 'B' then parseBase 2 rest
    else if c = 'o' ∨ c = 'O' then parseBase 8 rest
    else parseDec ('0' :: c :: rest)
  | cs => parseDec cs

/-- `Math.trunc`: round toward zero. -/
def jsTrunc (q : ℚ) : ℚ :=
  if q < 0 then -((⌊-q⌋ : ℤ) : ℚ) else ((⌊q⌋ : ℤ) : ℚ)

/-- The regular expression over strings used by the offset key normalization:
matches exactly the empty string, "0", "-0", and a minus sign followed by a
nonzero digit and then digits. -/
def validDecInt (s : String) : Bool :=
  match s.data with
  | [] => true
  | c0 :: rest0 =>
    if c0 == '0' then rest0.isEmpty
    else if c0 == '-' then
      match rest0 with
      | [] => false
      | c :: rest =>
        (c == '0' && rest.isEmpty) || ((49 ≤ c.toNat && c.toNat ≤ 57) && rest.all isDecDigit)
    else false

/-- Is this normalized key an integer-valued number? -/
def isIntKey : JsVal → Bool
  | .num q => q.den == 1
  | _ => false

/-- One non-fatal diagnostic (`console.error`) site of the sources, with the
value interpolated into its message.  Message texts:
`undefinedVariable n`: "Notice: Undefined variable n";
`illegalOffsetType v`: "Warning: Illegal offset type v";
`uninitializedStringOffset v`: "Notice: Uninitialized string offset v";
`undefinedOffset v`: "Notice: Undefined offset: v";
`cannotUseScalarAsArray`: "Warning:  Cannot use a scalar value as an array";
`illegalStringOffset v`: "Warning: Illegal string offset v". -/
inductive Diag where
  | undefinedVariable (name : String)
  | illegalOffsetType (v : JsVal)
  | uninitializedStringOffset (v : JsVal)
  | undefinedOffset (v : JsVal)
  | cannotUseScalarAsArray
  | illegalStringOffset (v : JsVal)

/-- A fatal error (a thrown `Error`) of the embedded sources, or a model
boundary.  `hostError` stands for a JavaScript-level TypeError (e.g. reading a
field of `undefined`); `unmodelledSubEvaluator` marks delegation to a
sub-evaluator whose source file is not part of the given sources and which no
claim exercises. -/
inductive Fatal where
  | evalWrongNode (kind : String)
  | cannotUseEmptyOffsetRead
  | cannotCreateStringOffsetRef
  | wrongTypeInWritingStringOffset
  | undefinedDerefTypeRead
  | undefinedDerefTypeWrite
  | unknownExpressionType (kind : String)
  | badOffsetInstruction (inst : Option String)
  | unmodelledSubEvaluator (name : String)
  | hostError

/-- The exact message carried by each thrown `Error` of the sources. -/
def Fatal.message : Fatal → String
  | .evalWrongNode k =>
    "Eval Error: Evaluate wrong AST node: " ++ k ++ ", should be offsetlookup"
  | .cannotUseEmptyOffsetRead => "Fatal error:  Cannot use [] for reading."
  | .cannotCreateStringOffsetRef =>
    "Fatal error:  Uncaught Error: Cannot create references to/from string offsets."
  | .wrongTypeInWritingStringOffset => "Eval Error: wrong type in writing string offset"
  | .undefinedDerefTypeRead =>
    "Eval error: undefined dereferencable-expression type in reading offset"
  | .undefinedDerefTypeWrite =>
    "Eval error: undefined type dereferencable-expression in writing offset"
  | .unknownExpressionType k => "Eval Error: Unknown expression type: " ++ k
  | .badOffsetInstruction i =>
    "Eval error: " ++ (match i with | some t => t | none => "undefined")
      ++ " instruction in offset Node"
  | .unmodelledSubEvaluator n => "model boundary: " ++ n
  | .hostError => "TypeError"

/-- An ILocation as the offset evaluator actually uses it: a `type` tag naming
the runtime type of the value stored at the location ("boolean", "number",
"string", "array", "null", "object"), the environment index `idx`, the storage
slot id `vstoreId`, and the sub-offset annotation `offset` set by the
string-subscript write path. -/
structure Location where
  type : String
  idx : Nat
  vstoreId : Nat
  offset : JsVal := .undefined

/-- A node of the execution stack (interface IStkNode of `evaluator.ts`):
value, location, instruction tag, pending AST node — unset fields are the
JavaScript `undefined`. -/
structure IStkNode (Node : Type) where
  val : JsVal := .undefined
  loc : Option Location := none
  inst : Option String := none
  node : Option Node := none

/-- The AST node model.  The evaluator consumes nodes through their `kind` tag
and kind-specific fields (`what`, `offset`, `expression`, `value`, `name`,
`byref`); `nother` stands for any node whose kind is none of the structured
ones.  Numeric, string and boolean literal nodes carry their value exactly as
the external parser delivers it: for numbers the raw source spelling. -/
inductive Node where
  | nprog (children : List Node)
  | nnum (value : String)
  | nstr (value : String)
  | nbool (value : Bool)
  | nvar (name : String) (byref : Bool)
  | noffsetlookup (what : Node) (offset : Option Node)
  | nexprstmt (expression : Node)
  | nassign (left : Node) (right : Node) (operator : String)
  | narray (items : List Node)
  | nglobal (items : List Node)
  | nother (kind : String)

/-- The `kind` tag the dispatcher switches on. -/
def Node.kind : Node → String
  | .nprog _ => "program"
  | .nnum _ => "number"
  | .nstr _ => "string"
  | .nbool _ => "boolean"
  | .nvar _ _ => "variable"
  | .noffsetlookup _ _ => "offsetlookup"
  | .nexprstmt _ => "expressionstatement"
  | .nassign _ _ _ => "assign"
  | .narray _ => "array"
  | .nglobal _ => "global"
  | .nother k => k

/-- The `.name` field access used when interpolating a node into an
undefined-variable notice; reading `.name` of a node without one yields the
JavaScript `undefined`, which stringifies to "undefined". -/
def Node.varName : Node → String
  | .nvar n _ => n
  | _ => "undefined"

/-- The `.byref` field access (`undefined`, hence false, on nodes without it). -/
def Node.byref : Node → Bool
  | .nvar _ b => b
  | _ => false

/-- Per-environment Bindings: the name-to-slot symbol table `vslot` and the
slot-to-value store `vstore` (the heap store for array payloads is folded into
the stored `JsVal`). -/
structure Bindings where
  vslot : List (String × Nat)
  vstore : List (Nat × JsVal)

/-- The environment table; index 0 is the global environment created at
construction. -/
structure Env where
  envs : List Bindings

/-- The whole evaluator state: execution stack (head = top), environment
table, and the ordered log of emitted diagnostics. -/
structure EvalState where
  stk : List (IStkNode Node)
  env : Env
  diags : List Diag

/-- Result of running an evaluation routine: normal completion, or a thrown
fatal error together with the state at throw time (mutations performed before
the throw persist). -/
inductive EvalResult where
  | ok (s : EvalState)
  | fatal (e : Fatal) (s : EvalState)

/-- Did evaluation abort with a fatal error? -/
def EvalResult.isFatal : EvalResult → Bool
  | .fatal _ _ => true
  | .ok _ => false

/-- Did evaluation abort precisely with the empty-subscript-read fatal error? -/
def EvalResult.isEmptyOffsetErr : EvalResult → Bool
  | .fatal .cannotUseEmptyOffsetRead _ => true
  | _ => false

/-- The number of items on the execution stack after an evaluation step. -/
def EvalResult.stackSize : EvalResult → Nat
  | .ok s => s.stk.length
  | .fatal _ s => s.stk.length

/-- Push an item onto the execution stack. -/
def pushItem (it : IStkNode Node) (s : EvalState) : EvalState :=
  { s with stk := it :: s.stk }

/-- Emit one diagnostic. -/
def addDiag (d : Diag) (s : EvalState) : EvalState :=
  { s with diags := s.diags ++ [d] }

/-- Emit a batch of diagnostics in order. -/
def addDiags (ds : List Diag) (s : EvalState) : EvalState :=
  { s with diags := s.diags ++ ds }

/-- Modelled from the spec: the variable storage lookup of `variable.ts`
(not among the given sources).  A bare name resolves through the current
(global, index 0) environment vslot to a slot id and through vstore to the
stored value; an unbound name resolves to nothing. -/
def lookupVar (e : Env) (name : String) : Option (Nat × JsVal) :=
  match e.envs.head? with
  | none => none
  | some b =>
    match b.vslot.find? (fun p => p.1 == name) with
    | none => none
    | some p =>
      match b.vstore.find? (fun q => q.1 == p.2) with
      | none => none
      | some q => some (p.2, q.2)

/-- Modelled from the spec: the slot-store access
`this.env.get(idx).heap._var.vstore.get(vstoreId).val` performed by the
string-subscript write path of `offset.ts`; the accessor interface itself is
not among the given sources, so it is modelled as the evident lookup of the
slot value in the environment table. -/
def Env.slotVal (e : Env) (idx slot : Nat) : JsVal :=
  match e.envs.get? idx with
  | none => .undefined
  | some b =>
    match b.vstore.find? (fun q => q.1 == slot) with
    | some q => q.2
    | none => .undefined

/-- Modelled from the spec: the `type` tag a resolved location carries, naming
the runtime type of the value it designates (`offset.ts` compares it against
"array", "object", "null" and the scalar type names). -/
def typeTag : JsVal → String
  | .bool _ => "boolean"
  | .num _ => "number"
  | .nan => "number"
  | .str _ => "string"
  | .arr _ => "array"
  | .obj => "object"
  | .jsnull => "null"
  | .undefined => "null"

/-- First rung of the offset key normalization ladder (identical in READ and
WRITE mode): a key whose `typeof` is not number, boolean or string draws the
illegal-offset-type warning and is replaced by the empty string. -/
def illegalCoerce (v : JsVal) : List Diag × JsVal :=
  if !(jsTypeof v == "number" || jsTypeof v == "boolean" || jsTypeof v == "string") then
    ([.illegalOffsetType v], .str "")
  else ([], v)

/-- The `switch (typeof offsetName)` of the key normalization: booleans become
0/1 via `Number`, a string matching the signed-decimal-integer pattern is
converted with `Number`, a number is truncated toward zero with `Math.trunc`
(so `NaN` stays `NaN`); anything else falls through unchanged. -/
def keySwitch : JsVal → JsVal
  | .bool b => .num (if b then 1 else 0)
  | .str t => if validDecInt t then jsNumber t else .str t
  | .num q => .num (jsTrunc q)
  | .nan => .nan
  | v => v

/-- The full key normalization applied by `evaluateOffset` to a key value that
is not `undefined`: the illegal-type coercion followed by the typeof switch
(note the coerced empty string then matches the integer pattern and becomes
the number 0). -/
def normalizeKey (v : JsVal) : List Diag × JsVal :=
  let p := illegalCoerce v
  (p.1, keySwitch p.2)

/-- SameValueZero equality on the scalar values that can occur as normalized
array keys (the JavaScript Map key equality: `NaN` equals `NaN`). -/
def jsKeyEq : JsVal → JsVal → Bool
  | .undefined, .undefined => true
  | .jsnull, .jsnull => true
  | .bool a, .bool b => a == b
  | .num a, .num b => a == b
  | .nan, .nan => true
  | .str a, .str b => a == b
  | _, _ => false

/-- `array.get(key)` on the IArray payload: the stored value, or the
JavaScript `undefined` when the key is absent. -/
def arrGet (elts : List (JsVal × JsVal)) (k : JsVal) : JsVal :=
  match elts.find? (fun p => jsKeyEq p.1 k) with
  | some p => p.2
  | none => .undefined

/-- The JavaScript string subscript `str[k]`: a one-character string when `k`
is an integer index within bounds, `undefined` otherwise (negative, fractional,
`NaN` or non-number keys select no character). -/
def jsStringIndex (s : String) (k : JsVal) : JsVal :=
  match k with
  | .num q =>
    if q.den = 1 ∧ 0 ≤ q.num ∧ q.num < (s.data.length : Int) then
      match s.data.get? q.num.toNat with
      | some c => .str (String.singleton c)
      | none => .undefined
    else .undefined
  | _ => .undefined

/-- The READ-mode string branch of `evaluateOffset` (after the by-reference
check): a key still of string type is replaced by the integer 0; a negative
numeric key is shifted by the string length (counting from the end); the
character is read with the string subscript, and when that read is `undefined`
the uninitialized-string-offset notice is emitted alongside it. -/
def readStringOffset (str : String) (key : JsVal) : List Diag × JsVal :=
  let k := match key with
    | .str _ => JsVal.num 0
    | v => v
  let k2 := match k with
    | .num q => if q < 0 then JsVal.num (q + (str.data.length : ℚ)) else JsVal.num q
    | v => v
  let r := jsStringIndex str k2
  ((if jsIsUndefined r then [Diag.uninitializedStringOffset k2] else []), r)

/-- Modelled from the spec: the variable sub-evaluator of `variable.ts` (a
repository file not among the given sources).  The dispatcher drops the
intent tag before delegating, so the pushed result carries both faces at
once: the current value (`undefined` for an unbound name, which is what the
offset evaluator checks for) and, for a bound name, the storage location with
its runtime-type tag, as the offset write path consumes it. -/
def evaluateVariable (s : EvalState) : EvalResult :=
  match s.stk with
  | [] => .fatal .hostError s
  | it :: rest =>
    let s0 : EvalState := { s with stk := rest }
    match it.node with
    | some (.nvar name _) =>
      match lookupVar s0.env name with
      | some p => .ok (pushItem { val := p.2, loc := some ⟨typeTag p.2, 0, p.1, .undefined⟩ } s0)
      | none => .ok (pushItem { val := .undefined } s0)
    | _ => .fatal .hostError s0

/-- `assign.ts` is a repository file not among the given sources and no claim
below depends on its behavior; delegation to it is an explicit model
boundary. -/
def evaluateAssign (s : EvalState) : EvalResult :=
  .fatal (.unmodelledSubEvaluator "assign") s

/-- `array.ts` is a repository file not among the given sources and no claim
below depends on its behavior; delegation to it is an explicit model
boundary. -/
def evaluateArray (s : EvalState) : EvalResult :=
  .fatal (.unmodelledSubEvaluator "array") s

/-- `global.ts` is a repository file not among the given sources and no claim
below depends on its behavior; delegation to it is an explicit model
boundary. -/
def evaluateGlobal (s : EvalState) : EvalResult :=
  .fatal (.unmodelledSubEvaluator "global") s

/-- `Evaluator.prototype.evaluate`: pop the top item and dispatch on the kind
of its AST node.  A statement whose expression is a bare literal kind is
discarded without effect; a statement whose expression kind is none of the
switched cases is likewise discarded by the `default: break`.  Literal nodes
resolve immediately (numeric literals through `Number` on their spelling);
`assign`, `variable`, `array`, `global` re-push themselves and delegate; any
other kind throws the unknown-expression-type error. -/
def evaluate (s : EvalState) : EvalResult :=
  match s.stk with
  | [] => .fatal .hostError s
  | it :: rest =>
    let s0 : EvalState := { s with stk := rest }
    match it.node with
    | none => .fatal .hostError s0
    | some expr =>
      match expr with
      | .nexprstmt e =>
        match e with
        | .narray _ => .ok s0
        | .nnum _ => .ok s0
        | .nstr _ => .ok s0
        | .nbool _ => .ok s0
        | .nassign _ _ _ => evaluateAssign (pushItem { node := some e } s0)
        | .nvar _ _ => evaluateVariable (pushItem { node := some e } s0)
        | _ => .ok s0
      | .nbool b => .ok (pushItem { val := .bool b } s0)
      | .nnum v => .ok (pushItem { val := jsNumber v } s0)
      | .nstr v => .ok (pushItem { val := .str v } s0)
      | .nassign _ _ _ => evaluateAssign (pushItem { node := some expr } s0)
      | .nvar _ _ => evaluateVariable (pushItem { node := some expr } s0)
      | .narray _ => evaluateArray (pushItem { node := some expr } s0)
      | .nglobal _ => evaluateGlobal (pushItem { node := some expr } s0)
      | _ => .fatal (.unknownExpressionType expr.kind) s0

/-- The READ side of `evaluateOffset` (lines 40-135 of `offset.ts`): push the
offset (if present) and the dereferencable expression, force the latter, and
dispatch on the resulting value; an `undefined` base notices an undefined
variable and yields null, a `null` base yields null silently, otherwise the
key is forced and normalized and the base value is subscripted per its type.
(On the `undefined` and `null` early returns the pending offset item pushed
first is left on the stack.) -/
def evaluateOffsetRead (what : Node) (offsetOpt : Option Node) (s0 : EvalState) : EvalResult :=
  let s1 := match offsetOpt with
    | some off => pushItem { node := some off, inst := some "READ" } s0
    | none => s0
  let s2 := pushItem { node := some what, inst := some "READ" } s1
  match evaluate s2 with
  | .fatal e st => .fatal e st
  | .ok s3 =>
    match s3.stk with
    | [] => .fatal .hostError s3
    | derefItem :: rest3 =>
      let s4 : EvalState := { s3 with stk := rest3 }
      match derefItem.val with
      | .undefined =>
        .ok (pushItem { val := .jsnull } (addDiag (.undefinedVariable what.varName) s4))
      | .jsnull => .ok (pushItem { val := .jsnull } s4)
      | baseVal =>
        match evaluate s4 with
        | .fatal e st => .fatal e st
        | .ok s5 =>
          match s5.stk with
          | [] => .fatal .hostError s5
          | keyItem :: rest5 =>
            let s6 : EvalState := { s5 with stk := rest5 }
            let kp := match keyItem.val with
              | .undefined => ([], JsVal.undefined)
              | v => normalizeKey v
            let key := kp.2
            let s7 := addDiags kp.1 s6
            if jsTypeof baseVal == "boolean" || jsTypeof baseVal == "number" then
              .ok (pushItem { val := .jsnull } s7)
            else if jsTypeof baseVal == "string" then
              if what.byref then .fatal .cannotCreateStringOffsetRef s7
              else
                match baseVal with
                | .str strv =>
                  let dr := readStringOffset strv key
                  .ok (pushItem { val := dr.2 } (addDiags dr.1 s7))
                | _ => .fatal .hostError s7
            else
              match baseVal with
              | .arr elts =>
                if elts.length == 0 || jsIsUndefined (arrGet elts key) then
                  .ok (pushItem { val := .jsnull } (addDiag (.undefinedOffset key) s7))
                else .ok (pushItem { val := arrGet elts key } s7)
              | .obj => .ok s7
              | _ => .fatal .undefinedDerefTypeRead s7

/-- Lines 191-237 of `offset.ts`: given the popped location item of the
dereferencable expression and the normalized key, produce the location to
write through.  The two leading guards compare `typeof derefNode.loc.type`
(the `typeof` of the tag string, which is always "string") against "boolean",
"number" and "string"; hence the scalar warning branch is unreachable, every
tagged location enters the string branch, and a slot whose stored value is
not a string throws the wrong-type fatal error there. -/
def offsetWriteLoc (what : Node) (derefLoc : Option Location) (key : JsVal)
    (s : EvalState) : EvalResult :=
  match derefLoc with
  | none => .fatal .hostError s
  | some loc =>
    if jsTypeofStr loc.type == "boolean" || jsTypeofStr loc.type == "number" then
      .ok (pushItem { loc := none } (addDiag .cannotUseScalarAsArray s))
    else if jsTypeofStr loc.type == "string" then
      if what.byref then .fatal .cannotCreateStringOffsetRef s
      else
        let key1 := match key with
          | .str _ => JsVal.num 0
          | v => v
        let stored := s.env.slotVal loc.idx loc.vstoreId
        if !(jsTypeof stored == "string") then .fatal .wrongTypeInWritingStringOffset s
        else
          match stored with
          | .str strv =>
            let adj : List Diag × JsVal := match key1 with
              | .num q =>
                if q < 0 then
                  let q2 := q + (strv.data.length : ℚ)
                  ((if q2 < 0 then [Diag.illegalStringOffset (.num q2)] else []), .num q2)
                else ([], .num q)
              | v => ([], v)
            .ok (pushItem { loc := some { loc with offset := adj.2 } } (addDiags adj.1 s))
          | _ => .fatal .hostError s
    else if loc.type == "array" then
      .ok (pushItem {} s)
    else if loc.type == "object" then
      .ok s
    else if loc.type == "null" then
      .ok s
    else .fatal .undefinedDerefTypeWrite s

/-- The WRITE side of `evaluateOffset` (lines 136-237 of `offset.ts`): push
the offset (if present) and the dereferencable expression with WRITE intent,
force the latter to a location, then force and normalize the key (an
`undefined` key value notices an undefined variable and is replaced by the
empty string; an absent offset means the auto-append key 0), and resolve the
written location per the location type tag. -/
def evaluateOffsetWrite (what : Node) (offsetOpt : Option Node) (s0 : EvalState) : EvalResult :=
  let s1 := match offsetOpt with
    | some off => pushItem { node := some off, inst := some "READ" } s0
    | none => s0
  let s2 := pushItem { node := some what, inst := some "WRITE" } s1
  match evaluate s2 with
  | .fatal e st => .fatal e st
  | .ok s3 =>
    match s3.stk with
    | [] => .fatal .hostError s3
    | derefItem :: rest3 =>
      let s4 : EvalState := { s3 with stk := rest3 }
      match offsetOpt with
      | some off =>
        match evaluate s4 with
        | .fatal e st => .fatal e st
        | .ok s5 =>
          match s5.stk with
          | [] => .fatal .hostError s5
          | keyItem :: rest5 =>
            let s6 : EvalState := { s5 with stk := rest5 }
            let kp := match keyItem.val with
              | .undefined => ([Diag.undefinedVariable off.varName], JsVal.str "")
              | v => normalizeKey v
            offsetWriteLoc what derefItem.loc kp.2 (addDiags kp.1 s6)
      | none => offsetWriteLoc what derefItem.loc (.num 0) s4

/-- `Evaluator.prototype.evaluateOffset`: pop the subscript item (its node
must be an `offsetlookup`), reject an empty subscript outside WRITE intent
with the fatal cannot-use-[]-for-reading error, then run the READ or WRITE
side per the instruction tag (any other tag throws). -/
def evaluateOffset (s : EvalState) : EvalResult :=
  match s.stk with
  | [] => .fatal .hostError s
  | it :: rest =>
    let s0 : EvalState := { s with stk := rest }
    match it.node with
    | none => .fatal .hostError s0
    | some n =>
      match n with
      | .noffsetlookup what offsetOpt =>
        if (it.inst == none || it.inst != some "WRITE") && offsetOpt.isNone then
          .fatal .cannotUseEmptyOffsetRead s0
        else if it.inst == some "READ" then evaluateOffsetRead what offsetOpt s0
        else if it.inst == some "WRITE" then evaluateOffsetWrite what offsetOpt s0
        else .fatal (.badOffsetInstruction it.inst) s0
      | m => .fatal (.evalWrongNode m.kind) s0

/-- `Evaluator.prototype.run`: push each top-level child of the program in
source order and evaluate it; a thrown fatal error aborts the remaining
statements. -/
def run (children : List Node) (s : EvalState) : EvalResult :=
  match children with
  | [] => .ok s
  | c :: cs =>
    match evaluate (pushItem { node := some c, val := .undefined } s) with
    | .fatal e st => .fatal e st
    | .ok st => run cs st

/-- A list all of whose elements satisfy `p` is its own `takeWhile`. -/
theorem takeWhile_of_all {α : Type} (p : α → Bool) :
    ∀ (l : List α), l.all p = true → l.takeWhile p = l
  | [], _ => rfl
  | a :: l, h => by
    simp only [List.all_cons, Bool.and_eq_true] at h
    simp [List.takeWhile_cons, h.1, takeWhile_of_all p l h.2]

/-- A list all of whose elements satisfy `p` has an empty `dropWhile`. -/
theorem dropWhile_of_all {α : Type} (p : α → Bool) :
    ∀ (l : List α), l.all p = true → l.dropWhile p = []
  | [], _ => rfl
  | a :: l, h => by
    simp only [List.all_cons, Bool.and_eq_true] at h
    simp [List.dropWhile_cons, h.1, dropWhile_of_all p l h.2]

/-- The decimal grammar of `Number` on a minus sign followed by decimal digits
yields exactly the negated digit value. -/
theorem parseDec_neg_digits (c : Char) (rest : List Char)
    (hc : isDecDigit c = true) (hr : rest.all isDecDigit = true) :
    parseDec ('-' :: c :: rest) = .num (-(digitsNat 10 (c :: rest) : ℚ)) := by
  have hall : (c :: rest).all isDecDigit = true := by
    simp [List.all_cons, hc, hr]
  have ht := takeWhile_of_all isDecDigit (c :: rest) hall
  have hd := dropWhile_of_all isDecDigit (c :: rest) hall
  simp only [parseDec, ht, hd]
  simp [decValue, show digitsNat 10 [] = 0 from rfl]

/-- Truncation toward zero always yields an integer-valued rational. -/
theorem jsTrunc_den (q : ℚ) : (jsTrunc q).den = 1 := by
  unfold jsTrunc
  split
  · rw [show -((⌊-q⌋ : ℤ) : ℚ) = ((-⌊-q⌋ : ℤ) : ℚ) by push_cast; ring]
    exact Rat.den_intCast _
  · exact Rat.den_intCast _

/-- A string accepted by the signed-decimal-integer pattern converts through
`Number` to an integer-valued number. -/
theorem validDecInt_isIntKey (t : String) (h : validDecInt t = true) :
    isIntKey (jsNumber t) = true := by
  obtain ⟨cs⟩ := t
  rcases cs with _ | ⟨c0, rest0⟩
  · with_unfolding_all rfl
  · by_cases h0 : c0 = '0'
    · subst h0
      have hre : rest0.isEmpty = true := by
        simpa [validDecInt] using h
      have : rest0 = [] := by
        cases rest0 with
        | nil => rfl
        | cons a l => simp [List.isEmpty] at hre
      subst this
      with_unfolding_all rfl
    · by_cases hm : c0 = '-'
      · subst hm
        rcases rest0 with _ | ⟨c, rest⟩
        · simp [validDecInt] at h
        · have hh : ((c == '0' && rest.isEmpty)
              || ((49 ≤ c.toNat && c.toNat ≤ 57) && rest.all isDecDigit)) = true := by
            simpa [validDecInt] using h
          rw [Bool.or_eq_true] at hh
          rcases hh with hz | hd
          · rw [Bool.and_eq_true] at hz
            have hc0 : c = '0' := by simpa using hz.1
            have hr0 : rest = [] := by
              cases rest with
              | nil => rfl
              | cons a l => simp [List.isEmpty] at hz
            subst hc0; subst hr0
            with_unfolding_all rfl
          · rw [Bool.and_eq_true] at hd
            have hc : isDecDigit c = true := by
              simp only [isDecDigit, Bool.and_eq_true, decide_eq_true_eq] at hd ⊢
              omega
            have hjs : jsNumber (String.mk ('-' :: c :: rest))
                = .num (-(digitsNat 10 (c :: rest) : ℚ)) := by
              show parseDec ('-' :: c :: rest) = _
              exact parseDec_neg_digits c rest hc hd.2
            rw [hjs]
            simp [isIntKey, Rat.neg_den]
      · exfalso
        have : validDecInt (String.mk (c0 :: rest0)) = false := by
          simp [validDecInt, h0, hm]
        rw [this] at h
        exact Bool.false_ne_true h

/-- The variable sub-evaluator never throws the empty-subscript-read error. -/
theorem evaluateVariable_not_empty (s : EvalState) :
    (evaluateVariable s).isEmptyOffsetErr = false := by
  unfold evaluateVariable
  repeat' (first | split | (dsimp only))
  all_goals rfl

/-- The dispatcher never throws the empty-subscript-read error. -/
theorem evaluate_not_empty (s : EvalState) :
    (evaluate s).isEmptyOffsetErr = false := by
  unfold evaluate
  repeat' (first | split | (dsimp only))
  all_goals first
    | rfl
    | exact evaluateVariable_not_empty _

/-- The write-location resolution never throws the empty-subscript-read
error. -/
theorem offsetWriteLoc_not_empty (what : Node) (l : Option Location) (k : JsVal)
    (s : EvalState) : (offsetWriteLoc what l k s).isEmptyOffsetErr = false := by
  unfold offsetWriteLoc
  repeat' (first | split | (dsimp only))
  all_goals rfl

/-- The WRITE side of the offset evaluator never throws the
empty-subscript-read error. -/
theorem evaluateOffsetWrite_not_empty (what : Node) (o : Option Node) (s : EvalState) :
    (evaluateOffsetWrite what o s).isEmptyOffsetErr = false := by
  unfold evaluateOffsetWrite
  repeat' (first | split | (dsimp only))
  all_goals first
    | rfl
    | exact offsetWriteLoc_not_empty _ _ _ _
    | (rename_i heq
       rw [← heq]
       exact evaluate_not_empty _)

/-- The string subscript selects no character at a negative key. -/
theorem jsStringIndex_neg (s : String) (q : ℚ) (h : q < 0) :
    jsStringIndex s (.num q) = .undefined := by
  show (if q.den = 1 ∧ 0 ≤ q.num ∧ q.num < (s.data.length : Int) then
      match s.data.get? q.num.toNat with
      | some c => JsVal.str (String.singleton c)
      | none => JsVal.undefined
    else JsVal.undefined) = JsVal.undefined
  rw [if_neg]
  rintro ⟨-, hn, -⟩
  exact absurd (Rat.num_nonneg.mp hn) (not_le.mpr h)

/-- C1: the claim states that a WRITE-intent subscript on a base location
holding a scalar (boolean or number) draws the non-fatal scalar-as-array
warning, yields no usable location and does not throw.  The code disagrees:
because the guard tests `typeof` of the location type tag (always "string"),
the scalar branch is unreachable and the evaluation of the subscript write in
the program with variable a bound to the number 1 aborts with the fatal
wrong-type-in-writing-string-offset error, the environment left untouched (so
no write to the scalar occurs, but through a throw, not the claimed warning).
The second conjunct records that `typeof` of any type tag is "string", which
is why the guard that would emit the claimed warning can never fire. -/
theorem c1_write_scalar_subscript :
    evaluateOffset
      ⟨[⟨.undefined, none, some "WRITE",
          some (.noffsetlookup (.nvar "a" false) (some (.nnum "0")))⟩],
        ⟨[⟨[("a", 0)], [(0, .num 1)]⟩]⟩, []⟩
      = .fatal .wrongTypeInWritingStringOffset
          ⟨[], ⟨[⟨[("a", 0)], [(0, .num 1)]⟩]⟩, []⟩
    ∧ (∀ t : String, jsTypeofStr t = "string") :=
  ⟨by with_unfolding_all rfl, fun _ => rfl⟩

/-- C2: the claim states that a WRITE-intent subscript whose base location
refers to an array pushes an item whose location is scoped to that array with
the normalized key, creating the slot if absent.  The code disagrees: the
`typeof`-of-tag guard routes every tagged location into the string-write
branch, and with variable b bound to an (empty) array the stored value is not
a string, so the evaluation aborts with the fatal
wrong-type-in-writing-string-offset error; no location is ever pushed (and the
array branch itself, were it reachable, pushes an empty stack item and ignores
the key).  The second conjunct records that every location type tag satisfies
the string-branch guard. -/
theorem c2_write_array_subscript :
    evaluateOffset
      ⟨[⟨.undefined, none, some "WRITE",
          some (.noffsetlookup (.nvar "b" false) (some (.nnum "1")))⟩],
        ⟨[⟨[("b", 0)], [(0, .arr [])]⟩]⟩, []⟩
      = .fatal .wrongTypeInWritingStringOffset
          ⟨[], ⟨[⟨[("b", 0)], [(0, .arr [])]⟩]⟩, []⟩
    ∧ (∀ loc : Location, (jsTypeofStr loc.type == "string") = true) :=
  ⟨by with_unfolding_all rfl, fun _ => rfl⟩

/-- C3: the claim states that all numeric literal spellings of the same
mathematical value evaluate identically, in particular that 0x539, 02471,
0b10100111001 and 1337e0 all evaluate to 1337.  The code disagrees on the
legacy octal spelling: `Number` treats 02471 as decimal, so the dispatcher
pushes 2471 for it while the hex, binary and scientific spellings all push
1337; the final conjunct records that 2471 is not 1337. -/
theorem c3_numeric_literal_bases :
    evaluate ⟨[⟨.undefined, none, none, some (.nnum "0x539")⟩], ⟨[⟨[], []⟩]⟩, []⟩
      = .ok ⟨[⟨.num 1337, none, none, none⟩], ⟨[⟨[], []⟩]⟩, []⟩
    ∧ evaluate ⟨[⟨.undefined, none, none, some (.nnum "0b10100111001")⟩], ⟨[⟨[], []⟩]⟩, []⟩
      = .ok ⟨[⟨.num 1337, none, none, none⟩], ⟨[⟨[], []⟩]⟩, []⟩
    ∧ evaluate ⟨[⟨.undefined, none, none, some (.nnum "1337e0")⟩], ⟨[⟨[], []⟩]⟩, []⟩
      = .ok ⟨[⟨.num 1337, none, none, none⟩], ⟨[⟨[], []⟩]⟩, []⟩
    ∧ evaluate ⟨[⟨.undefined, none, none, some (.nnum "02471")⟩], ⟨[⟨[], []⟩]⟩, []⟩
      = .ok ⟨[⟨.num 2471, none, none, none⟩], ⟨[⟨[], []⟩]⟩, []⟩
    ∧ (2471 : ℚ) ≠ 1337 :=
  ⟨by with_unfolding_all rfl, by with_unfolding_all rfl,
    by with_unfolding_all rfl, by with_unfolding_all rfl, by norm_num⟩

/-- C4: the claim states the stack discipline of the evaluation contract:
each call consumes exactly one item and leaves exactly one result.  The code
disagrees on the READ path of the offset evaluator: when the base resolves to
undefined (here, reading a subscript of an unbound variable), the early return
forgets the pending offset item pushed beforehand, so one consumed item
becomes two remaining items — the result and the still-pending offset node —
as both the state equality and the stack-size conjunct show. -/
theorem c4_offset_read_leaks_pending_item :
    evaluateOffset
      ⟨[⟨.undefined, none, some "READ",
          some (.noffsetlookup (.nvar "a" false) (some (.nnum "0")))⟩],
        ⟨[⟨[], []⟩]⟩, []⟩
      = .ok ⟨[⟨.jsnull, none, none, none⟩,
              ⟨.undefined, none, some "READ", some (.nnum "0")⟩],
             ⟨[⟨[], []⟩]⟩, [.undefinedVariable "a"]⟩
    ∧ (evaluateOffset
        ⟨[⟨.undefined, none, some "READ",
            some (.noffsetlookup (.nvar "a" false) (some (.nnum "0")))⟩],
          ⟨[⟨[], []⟩]⟩, []⟩).stackSize = 2 :=
  ⟨rfl, rfl⟩

/-- C5 (counterexample): the claim states that an unrecognized node kind also
fails fatally when it appears as the expression of an expressionstatement; at
the concrete statement wrapping an unknown kind, evaluation instead returns
normally, discarding the statement and raising no error. -/
theorem c5_statement_unknown_kind_silently_skipped :
    evaluate ⟨[⟨.undefined, none, none, some (.nexprstmt (.nother "foo"))⟩], ⟨[⟨[], []⟩]⟩, []⟩
      = .ok ⟨[], ⟨[⟨[], []⟩]⟩, []⟩
    ∧ (evaluate ⟨[⟨.undefined, none, none, some (.nexprstmt (.nother "foo"))⟩],
        ⟨[⟨[], []⟩]⟩, []⟩).isFatal = false :=
  ⟨rfl, rfl⟩

/-- C5 (amended): a node of a kind the dispatcher does not recognize fails
with the fatal unknown-expression-type error naming that kind when it reaches
the dispatcher directly; when it appears as the expression of an
expressionstatement it is silently discarded with no error and no
evaluation. -/
theorem c5_unknown_kind_dispatch :
    (∀ (k : String) (v : JsVal) (l : Option Location) (i : Option String)
        (rest : List (IStkNode Node)) (env : Env) (d : List Diag),
        k ∉ ["expressionstatement", "boolean", "number", "string",
             "assign", "variable", "array", "global"] →
        evaluate ⟨⟨v, l, i, some (.nother k)⟩ :: rest, env, d⟩
          = .fatal (.unknownExpressionType k) ⟨rest, env, d⟩)
    ∧ (∀ (k : String) (v : JsVal) (l : Option Location) (i : Option String)
        (rest : List (IStkNode Node)) (env : Env) (d : List Diag),
        k ∉ ["array", "number", "string", "boolean", "assign", "variable"] →
        evaluate ⟨⟨v, l, i, some (.nexprstmt (.nother k))⟩ :: rest, env, d⟩
          = .ok ⟨rest, env, d⟩) := by
  constructor
  · intro k v l i rest env d _
    rfl
  · intro k v l i rest env d _
    rfl

/-- C5 (witness): the amended dispatch behavior at the concrete unknown kinds
foo and bar. -/
theorem c5_unknown_kind_dispatch_witness :
    evaluate ⟨[⟨.undefined, none, none, some (.nother "foo")⟩], ⟨[⟨[], []⟩]⟩, []⟩
      = .fatal (.unknownExpressionType "foo") ⟨[], ⟨[⟨[], []⟩]⟩, []⟩
    ∧ evaluate ⟨[⟨.undefined, none, none, some (.nexprstmt (.nother "bar"))⟩], ⟨[⟨[], []⟩]⟩, []⟩
      = .ok ⟨[], ⟨[⟨[], []⟩]⟩, []⟩ :=
  ⟨c5_unknown_kind_dispatch.1 "foo" .undefined none none [] ⟨[⟨[], []⟩]⟩ [] (by decide),
   c5_unknown_kind_dispatch.2 "bar" .undefined none none [] ⟨[⟨[], []⟩]⟩ [] (by decide)⟩

/-- C6: an empty subscript is rejected with the fatal
cannot-use-[]-for-reading error whenever the intent tag is READ or absent — 
the throw happens before anything is evaluated, so environment and diagnostics
are exactly as before — while under WRITE intent the evaluation proceeds past
that check: no run of the WRITE side ever produces that error. -/
theorem c6_empty_subscript_intent :
    (∀ (what : Node) (v : JsVal) (l : Option Location) (i : Option String)
        (rest : List (IStkNode Node)) (env : Env) (d : List Diag),
        i ≠ some "WRITE" →
        evaluateOffset ⟨⟨v, l, i, some (.noffsetlookup what none)⟩ :: rest, env, d⟩
          = .fatal .cannotUseEmptyOffsetRead ⟨rest, env, d⟩)
    ∧ (∀ (what : Node) (v : JsVal) (l : Option Location)
        (rest : List (IStkNode Node)) (env : Env) (d : List Diag),
        (evaluateOffset ⟨⟨v, l, some "WRITE", some (.noffsetlookup what none)⟩ :: rest, env, d⟩
          ).isEmptyOffsetErr = false) := by
  constructor
  · intro what v l i rest env d h
    have hc : ((i == none || i != some "WRITE")
        && (Option.isNone (none : Option Node))) = true := by
      simp [bne_iff_ne, h]
    unfold evaluateOffset
    dsimp only
    rw [if_pos hc]
  · intro what v l rest env d
    show (evaluateOffsetWrite what none ⟨rest, env, d⟩).isEmptyOffsetErr = false
    exact evaluateOffsetWrite_not_empty _ _ _

/-- C6 (witness): the empty-subscript rejection at READ intent and the
unobstructed WRITE side, on a concrete unbound variable. -/
theorem c6_empty_subscript_intent_witness :
    evaluateOffset
      ⟨[⟨.undefined, none, some "READ", some (.noffsetlookup (.nvar "x" false) none)⟩],
        ⟨[⟨[], []⟩]⟩, []⟩
      = .fatal .cannotUseEmptyOffsetRead ⟨[], ⟨[⟨[], []⟩]⟩, []⟩
    ∧ (evaluateOffset
        ⟨[⟨.undefined, none, some "WRITE", some (.noffsetlookup (.nvar "x" false) none)⟩],
          ⟨[⟨[], []⟩]⟩, []⟩).isEmptyOffsetErr = false :=
  ⟨c6_empty_subscript_intent.1 (.nvar "x" false) .undefined none (some "READ") [] ⟨[⟨[], []⟩]⟩ []
      (by decide),
   c6_empty_subscript_intent.2 (.nvar "x" false) .undefined none [] ⟨[⟨[], []⟩]⟩ []⟩

/-- C7: the offset key normalization ladder — a key of illegal type draws the
warning and is coerced to the empty string at that rung; booleans normalize to
the integers 1 and 0; a string matching the signed-decimal-integer pattern
converts to an integer-valued number while any other string (such as "08")
remains a string key, with "0" and "-0" both becoming the integer 0; a
numeric key truncates toward zero, always to an integer-valued key, with 0
and -0 the same key (the two anchor cases 5/2 and -5/2 pin the toward-zero
direction). -/
theorem c7_offset_key_normalization :
    (∀ v : JsVal, jsTypeof v ≠ "boolean" → jsTypeof v ≠ "number" → jsTypeof v ≠ "string" →
        illegalCoerce v = ([.illegalOffsetType v], .str ""))
    ∧ normalizeKey (.bool true) = ([], .num 1)
    ∧ normalizeKey (.bool false) = ([], .num 0)
    ∧ (∀ t : String, validDecInt t = true → isIntKey (keySwitch (.str t)) = true)
    ∧ (∀ t : String, validDecInt t = false → keySwitch (.str t) = .str t)
    ∧ keySwitch (.str "0") = .num 0
    ∧ keySwitch (.str "-0") = .num 0
    ∧ keySwitch (.str "08") = .str "08"
    ∧ (∀ q : ℚ, keySwitch (.num q) = .num (jsTrunc q))
    ∧ (∀ q : ℚ, (jsTrunc q).den = 1)
    ∧ keySwitch (.num (5/2)) = .num 2
    ∧ keySwitch (.num (-5/2)) = .num (-2)
    ∧ keySwitch (.num (-0 : ℚ)) = keySwitch (.num (0 : ℚ)) := by
  refine ⟨?_, ?_, ?_, ?_, ?_, ?_, ?_, ?_, ?_, ?_, ?_, ?_, ?_⟩
  · intro v h1 h2 h3
    cases v <;> first
      | rfl
      | exact absurd rfl h1
      | exact absurd rfl h2
      | exact absurd rfl h3
  · with_unfolding_all rfl
  · with_unfolding_all rfl
  · intro t h
    have hk : keySwitch (.str t) = jsNumber t := by
      simp [keySwitch, h]
    rw [hk]
    exact validDecInt_isIntKey t h
  · intro t h
    simp [keySwitch, h]
  · with_unfolding_all rfl
  · with_unfolding_all rfl
  · with_unfolding_all rfl
  · intro q
    rfl
  · exact jsTrunc_den
  · with_unfolding_all rfl
  · with_unfolding_all rfl
  · with_unfolding_all rfl

/-- C7 (witness): the hypothesis-bearing rungs at concrete keys — an array
key draws the warning and coerces to the empty string, the pattern-matching
string -10 becomes an integer key, and "08" stays a string key. -/
theorem c7_offset_key_normalization_witness :
    illegalCoerce (.arr []) = ([.illegalOffsetType (.arr [])], .str "")
    ∧ isIntKey (keySwitch (.str "-10")) = true
    ∧ keySwitch (.str "08") = .str "08" :=
  ⟨c7_offset_key_normalization.1 (.arr []) (by decide) (by decide) (by decide),
   c7_offset_key_normalization.2.2.2.1 "-10" (by decide),
   c7_offset_key_normalization.2.2.2.2.1 "08" (by decide)⟩

/-- C8: a READ subscript on a string base with a negative integer key counts
from the end of the string — the key is shifted by the string length, and in
range the read behaves exactly as the shifted nonnegative read, while a key
still negative after the shift reads the undefined character and draws the
uninitialized-string-offset notice; concretely, reading key -1 of "abc"
pushes "c" with no diagnostic and reading key -10 pushes the undefined value
with the notice at the shifted key -7, with no fatal error. -/
theorem c8_string_negative_offset_read :
    (∀ (s : String) (q : ℚ), q < 0 → 0 ≤ q + (s.data.length : ℚ) →
        readStringOffset s (.num q) = readStringOffset s (.num (q + (s.data.length : ℚ))))
    ∧ (∀ (s : String) (q : ℚ), q < 0 → q + (s.data.length : ℚ) < 0 →
        readStringOffset s (.num q)
          = ([Diag.uninitializedStringOffset (.num (q + (s.data.length : ℚ)))], .undefined))
    ∧ evaluateOffset
        ⟨[⟨.undefined, none, some "READ",
            some (.noffsetlookup (.nvar "a" false) (some (.nnum "-1")))⟩],
          ⟨[⟨[("a", 0)], [(0, .str "abc")]⟩]⟩, []⟩
        = .ok ⟨[⟨.str "c", none, none, none⟩],
               ⟨[⟨[("a", 0)], [(0, .str "abc")]⟩]⟩, []⟩
    ∧ evaluateOffset
        ⟨[⟨.undefined, none, some "READ",
            some (.noffsetlookup (.nvar "a" false) (some (.nnum "-10")))⟩],
          ⟨[⟨[("a", 0)], [(0, .str "abc")]⟩]⟩, []⟩
        = .ok ⟨[⟨.undefined, none, none, none⟩],
               ⟨[⟨[("a", 0)], [(0, .str "abc")]⟩]⟩,
               [.uninitializedStringOffset (.num (-7))]⟩ := by
  refine ⟨?_, ?_, by with_unfolding_all rfl, by with_unfolding_all rfl⟩
  · intro s q h1 h2
    unfold readStringOffset
    dsimp only
    rw [if_pos h1, if_neg (not_lt.mpr h2)]
  · intro s q h1 h2
    unfold readStringOffset
    dsimp only
    rw [if_pos h1, jsStringIndex_neg _ _ h2]
    rfl

/-- C8 (witness): the end-relative shift at the concrete keys -1 (in range)
and -10 (out of range) on the string "abc". -/
theorem c8_string_negative_offset_read_witness :
    readStringOffset "abc" (.num (-1))
      = readStringOffset "abc" (.num (-1 + ("abc".data.length : ℚ)))
    ∧ readStringOffset "abc" (.num (-10))
      = ([Diag.uninitializedStringOffset (.num (-10 + ("abc".data.length : ℚ)))], .undefined) :=
  ⟨c8_string_negative_offset_read.1 "abc" (-1) (by norm_num)
      (by norm_num [show "abc".data.length = 3 from rfl]),
   c8_string_negative_offset_read.2.1 "abc" (-10) (by norm_num)
      (by norm_num [show "abc".data.length = 3 from rfl])⟩

/-- Evaluation of a variable node whose name is unbound pushes the undefined
value (and no location), whatever intent tag the consumed item carried. -/
theorem evaluate_var_unbound (name : String) (byref : Bool) (v : JsVal)
    (l : Option Location) (i : Option String) (rest : List (IStkNode Node))
    (env : Env) (d : List Diag) (h : lookupVar env name = none) :
    evaluate ⟨⟨v, l, i, some (.nvar name byref)⟩ :: rest, env, d⟩
      = .ok ⟨⟨.undefined, none, none, none⟩ :: rest, env, d⟩ := by
  show evaluateVariable ⟨⟨.undefined, none, none, some (.nvar name byref)⟩ :: rest, env, d⟩ = _
  unfold evaluateVariable
  dsimp only
  rw [h]
  rfl

/-- Evaluation of a variable node bound to slot and value pushes an item
carrying that value and the tagged location of the slot. -/
theorem evaluate_var_bound (name : String) (byref : Bool) (slot : Nat) (bv : JsVal)
    (v : JsVal) (l : Option Location) (i : Option String) (rest : List (IStkNode Node))
    (env : Env) (d : List Diag) (h : lookupVar env name = some (slot, bv)) :
    evaluate ⟨⟨v, l, i, some (.nvar name byref)⟩ :: rest, env, d⟩
      = .ok ⟨⟨bv, some ⟨typeTag bv, 0, slot, .undefined⟩, none, none⟩ :: rest, env, d⟩ := by
  show evaluateVariable ⟨⟨.undefined, none, none, some (.nvar name byref)⟩ :: rest, env, d⟩ = _
  unfold evaluateVariable
  dsimp only
  rw [h]
  rfl

/-- C9: for every READ-intent subscript evaluation with a variable base and
any key expression, in any environment: a base name that resolves to nothing
draws the undefined-variable notice naming it and pushes null; a base bound
to null pushes null with no new diagnostic; a base bound to any value of
boolean or number type pushes null once the key sub-evaluation completes
(the only diagnostics being those of the key evaluation and normalization);
in all three situations the evaluation returns normally, with no fatal
error.  The last four conjuncts instantiate the three outcomes at concrete
programs (unbound a, a = null, a = true, a = 7 with key 0). -/
theorem c9_read_base_undefined_null_scalar :
    (∀ (name : String) (byref : Bool) (off : Node) (v : JsVal) (l : Option Location)
        (rest : List (IStkNode Node)) (env : Env) (d : List Diag),
        lookupVar env name = none →
        evaluateOffset ⟨⟨v, l, some "READ",
            some (.noffsetlookup (.nvar name byref) (some off))⟩ :: rest, env, d⟩
          = .ok ⟨⟨.jsnull, none, none, none⟩
                  :: ⟨.undefined, none, some "READ", some off⟩ :: rest, env,
                 d ++ [.undefinedVariable name]⟩)
    ∧ (∀ (name : String) (byref : Bool) (off : Node) (slot : Nat) (v : JsVal)
        (l : Option Location) (rest : List (IStkNode Node)) (env : Env) (d : List Diag),
        lookupVar env name = some (slot, .jsnull) →
        evaluateOffset ⟨⟨v, l, some "READ",
            some (.noffsetlookup (.nvar name byref) (some off))⟩ :: rest, env, d⟩
          = .ok ⟨⟨.jsnull, none, none, none⟩
                  :: ⟨.undefined, none, some "READ", some off⟩ :: rest, env, d⟩)
    ∧ (∀ (name : String) (byref : Bool) (off : Node) (slot : Nat) (bv kv : JsVal)
        (kl : Option Location) (ki : Option String) (kn : Option Node) (v : JsVal)
        (l : Option Location) (rest : List (IStkNode Node)) (env : Env) (d dk : List Diag),
        lookupVar env name = some (slot, bv) →
        jsTypeof bv = "boolean" ∨ jsTypeof bv = "number" →
        evaluate ⟨⟨.undefined, none, some "READ", some off⟩ :: rest, env, d⟩
          = .ok ⟨⟨kv, kl, ki, kn⟩ :: rest, env, dk⟩ →
        evaluateOffset ⟨⟨v, l, some "READ",
            some (.noffsetlookup (.nvar name byref) (some off))⟩ :: rest, env, d⟩
          = .ok ⟨⟨.jsnull, none, none, none⟩ :: rest, env,
                 dk ++ (match kv with
                        | .undefined => []
                        | kv2 => (normalizeKey kv2).1)⟩)
    ∧ evaluateOffset
      ⟨[⟨.undefined, none, some "READ",
          some (.noffsetlookup (.nvar "a" false) (some (.nnum "0")))⟩],
        ⟨[⟨[], []⟩]⟩, []⟩
      = .ok ⟨[⟨.jsnull, none, none, none⟩,
              ⟨.undefined, none, some "READ", some (.nnum "0")⟩],
             ⟨[⟨[], []⟩]⟩, [.undefinedVariable "a"]⟩
    ∧ evaluateOffset
      ⟨[⟨.undefined, none, some "READ",
          some (.noffsetlookup (.nvar "a" false) (some (.nnum "0")))⟩],
        ⟨[⟨[("a", 0)], [(0, .jsnull)]⟩]⟩, []⟩
      = .ok ⟨[⟨.jsnull, none, none, none⟩,
              ⟨.undefined, none, some "READ", some (.nnum "0")⟩],
             ⟨[⟨[("a", 0)], [(0, .jsnull)]⟩]⟩, []⟩
    ∧ evaluateOffset
      ⟨[⟨.undefined, none, some "READ",
          some (.noffsetlookup (.nvar "a" false) (some (.nnum "0")))⟩],
        ⟨[⟨[("a", 0)], [(0, .bool true)]⟩]⟩, []⟩
      = .ok ⟨[⟨.jsnull, none, none, none⟩],
             ⟨[⟨[("a", 0)], [(0, .bool true)]⟩]⟩, []⟩
    ∧ evaluateOffset
      ⟨[⟨.undefined, none, some "READ",
          some (.noffsetlookup (.nvar "a" false) (some (.nnum "0")))⟩],
        ⟨[⟨[("a", 0)], [(0, .num 7)]⟩]⟩, []⟩
      = .ok ⟨[⟨.jsnull, none, none, none⟩],
             ⟨[⟨[("a", 0)], [(0, .num 7)]⟩]⟩, []⟩ := by
  refine ⟨?_, ?_, ?_, rfl, rfl, by with_unfolding_all rfl, by with_unfolding_all rfl⟩
  · intro name byref off v l rest env d h
    show evaluateOffsetRead (.nvar name byref) (some off) ⟨rest, env, d⟩ = _
    unfold evaluateOffsetRead
    simp only [pushItem]
    try dsimp only
    rw [evaluate_var_unbound name byref _ _ _ _ _ _ h]
    rfl
  · intro name byref off slot v l rest env d h
    show evaluateOffsetRead (.nvar name byref) (some off) ⟨rest, env, d⟩ = _
    unfold evaluateOffsetRead
    simp only [pushItem]
    try dsimp only
    rw [evaluate_var_bound name byref slot _ _ _ _ _ _ _ h]
  · intro name byref off slot bv kv kl ki kn v l rest env d dk hlk hsc hkey
    cases bv with
    | undefined => rcases hsc with h | h <;> simp [jsTypeof] at h
    | jsnull => rcases hsc with h | h <;> simp [jsTypeof] at h
    | str s => rcases hsc with h | h <;> simp [jsTypeof] at h
    | arr e => rcases hsc with h | h <;> simp [jsTypeof] at h
    | obj => rcases hsc with h | h <;> simp [jsTypeof] at h
    | bool b =>
      show evaluateOffsetRead (.nvar name byref) (some off) ⟨rest, env, d⟩ = _
      unfold evaluateOffsetRead
      simp only [pushItem]
      try dsimp only
      rw [evaluate_var_bound name byref slot _ _ _ _ _ _ _ hlk]
      try dsimp only
      rw [hkey]
      cases kv <;> rfl
    | num q =>
      show evaluateOffsetRead (.nvar name byref) (some off) ⟨rest, env, d⟩ = _
      unfold evaluateOffsetRead
      simp only [pushItem]
      try dsimp only
      rw [evaluate_var_bound name byref slot _ _ _ _ _ _ _ hlk]
      try dsimp only
      rw [hkey]
      cases kv <;> rfl
    | nan =>
      show evaluateOffsetRead (.nvar name byref) (some off) ⟨rest, env, d⟩ = _
      unfold evaluateOffsetRead
      simp only [pushItem]
      try dsimp only
      rw [evaluate_var_bound name byref slot _ _ _ _ _ _ _ hlk]
      try dsimp only
      rw [hkey]
      cases kv <;> rfl

/-- C9 (witness): the three universal outcomes exercised at concrete inputs
with name a and key literal 0 in three single-binding environments — unbound
(notice plus null), bound to null (null, no diagnostic), and bound to the
boolean true (null after the key evaluation, no diagnostic). -/
theorem c9_read_base_undefined_null_scalar_witness :
    evaluateOffset
      ⟨[⟨.undefined, none, some "READ",
          some (.noffsetlookup (.nvar "a" false) (some (.nnum "0")))⟩],
        ⟨[⟨[], []⟩]⟩, []⟩
      = .ok ⟨[⟨.jsnull, none, none, none⟩,
              ⟨.undefined, none, some "READ", some (.nnum "0")⟩],
             ⟨[⟨[], []⟩]⟩, [.undefinedVariable "a"]⟩
    ∧ evaluateOffset
      ⟨[⟨.undefined, none, some "READ",
          some (.noffsetlookup (.nvar "a" false) (some (.nnum "0")))⟩],
        ⟨[⟨[("a", 0)], [(0, .jsnull)]⟩]⟩, []⟩
      = .ok ⟨[⟨.jsnull, none, none, none⟩,
              ⟨.undefined, none, some "READ", some (.nnum "0")⟩],
             ⟨[⟨[("a", 0)], [(0, .jsnull)]⟩]⟩, []⟩
    ∧ evaluateOffset
      ⟨[⟨.undefined, none, some "READ",
          some (.noffsetlookup (.nvar "a" false) (some (.nnum "0")))⟩],
        ⟨[⟨[("a", 0)], [(0, .bool true)]⟩]⟩, []⟩
      = .ok ⟨[⟨.jsnull, none, none, none⟩],
             ⟨[⟨[("a", 0)], [(0, .bool true)]⟩]⟩, []⟩ :=
  ⟨c9_read_base_undefined_null_scalar.1 "a" false (.nnum "0") .undefined none []
      ⟨[⟨[], []⟩]⟩ [] rfl,
   c9_read_base_undefined_null_scalar.2.1 "a" false (.nnum "0") 0 .undefined none []
      ⟨[⟨[("a", 0)], [(0, .jsnull)]⟩]⟩ [] rfl,
   c9_read_base_undefined_null_scalar.2.2.1 "a" false (.nnum "0") 0 (.bool true)
      (.num 0) none none none .undefined none [] ⟨[⟨[("a", 0)], [(0, .bool true)]⟩]⟩ [] []
      rfl (Or.inl rfl) (by with_unfolding_all rfl)⟩

/-- C10: a READ subscript on a string base whose key is still a string after
normalization silently substitutes the integer key 0 — the read behaves
exactly as a key-0 read, producing the first character with no diagnostic on
a nonempty base — so reading key "foo" of "abc" pushes "a" with no
diagnostic. -/
theorem c10_string_read_with_string_key :
    (∀ (s t : String), readStringOffset s (.str t) = readStringOffset s (.num 0))
    ∧ (∀ (c : Char) (cs : List Char) (t : String),
        readStringOffset (String.mk (c :: cs)) (.str t)
          = ([], .str (String.singleton c)))
    ∧ evaluateOffset
        ⟨[⟨.undefined, none, some "READ",
            some (.noffsetlookup (.nvar "a" false) (some (.nstr "foo")))⟩],
          ⟨[⟨[("a", 0)], [(0, .str "abc")]⟩]⟩, []⟩
        = .ok ⟨[⟨.str "a", none, none, none⟩],
               ⟨[⟨[("a", 0)], [(0, .str "abc")]⟩]⟩, []⟩ := by
  refine ⟨fun s t => rfl, ?_, by with_unfolding_all rfl⟩
  intro c cs t
  unfold readStringOffset
  dsimp only
  rw [if_neg (lt_irrefl (0 : ℚ))]
  have hix : jsStringIndex (String.mk (c :: cs)) (.num 0) = .str (String.singleton c) := by
    show (if (0 : ℚ).den = 1 ∧ 0 ≤ (0 : ℚ).num ∧ (0 : ℚ).num < ((c :: cs).length : Int) then
        match (c :: cs).get? (0 : ℚ).num.toNat with
        | some c => JsVal.str (String.singleton c)
        | none => JsVal.undefined
      else JsVal.undefined) = JsVal.str (String.singleton c)
    rw [if_pos]
    · rfl
    · refine ⟨rfl, le_refl _, ?_⟩
      show (0 : ℤ) < ((c :: cs).length : ℤ)
      exact_mod_cast Nat.succ_pos cs.length
  rw [hix]
  rfl
